import Mathlib

/-!
Verification of the Notion → Gemini → Slack pipeline.

Shallow embedding of the orchestration pipeline (`src/main.py`) together
with the parts of the three client modules the pipeline drives
(`src/clients/notion_client.py`, `src/clients/gemini_client.py`,
`src/clients/slack_client.py`).  Remote effects (the Gemini generation
call, the Slack webhook post, the Notion PATCH, the database query) are
supplied as explicit outcome parameters; all control flow and string
manipulation is translated from the source.
-/

namespace NotionGeminiSlack

/-! Python string primitives used by the source. -/

/-- Characters removed by Python `str.strip()` (the ASCII whitespace set). -/
def pyIsSpace (c : Char) : Bool :=
  c = ' ' || c = '\t' || c = '\n' || c = '\r' || c = '\x0b' || c = '\x0c'

/-- Python `s.strip()`: drop whitespace from both ends of the string. -/
def pyStrip (s : String) : String :=
  ⟨((s.data.dropWhile pyIsSpace).reverse.dropWhile pyIsSpace).reverse⟩

/-- Python slice `s[:n]`: the first `n` characters (all of `s` when shorter). -/
def pyTake (s : String) (n : Nat) : String := ⟨s.data.take n⟩

/-- Python `len(s)`: the number of characters. -/
def pyLen (s : String) : Nat := s.data.length

/-- Python `sep.join(parts)`. -/
def pyJoin (sep : String) : List String → String
  | [] => ""
  | s :: rest => rest.foldl (fun acc x => acc ++ sep ++ x) s

/-- Python `str` applied to a `bool`: the capitalized words `True` / `False`. -/
def pyStrBool (b : Bool) : String := if b then "True" else "False"

/-! Embedding of `src/clients/notion_client.py`. -/

/-- A typed Notion property object, as consumed by
`NotionClient._extract_property_value`.  Each `Option` layer models a JSON
dictionary key that may be absent or null where the source distinguishes
those cases via `dict.get` defaults; list payloads model the JSON arrays the
source iterates.  Numeric payloads are modelled as integers (Python `str`
renders an integer the same way `toString` does). -/
inductive NotionProp where
  | title (texts : List (Option String))
  | rich_text (texts : List (Option String))
  | number (value : Option (Option Int))
  | select (sel : Option (Option String))
  | multi_select (opts : List (Option String))
  | date (d : Option (Option String × Option String))
  | checkbox (b : Option Bool)
  | url (u : Option (Option String))
  | email (e : Option (Option String))
  | phone_number (p : Option (Option String))
  | people (ps : List (Option String))
  | relation (rs : List (Option String))
  | unsupported (tag : String)
deriving DecidableEq, Repr

/-- Model of `NotionClient._extract_property_value`
(notion_client.py lines 80-138).  For `number`, a present-but-null raw
value goes through Python `str(None)`, giving `"None"`; an absent key goes
through `str("")`, giving `""`.  For `checkbox`, the value goes through
Python `str` on a `bool`.  The `url` / `email` / `phone_number` branches
apply the source's trailing `or ""`. -/
def extract_property_value : NotionProp → String
  | .title ts => pyJoin "" (ts.map (fun t => t.getD ""))
  | .rich_text ts => pyJoin "" (ts.map (fun t => t.getD ""))
  | .number v =>
      match v with
      | none => ""
      | some none => "None"
      | some (some n) => toString n
  | .select sel =>
      match sel with
      | none => ""
      | some name => name.getD ""
  | .multi_select opts => pyJoin ", " (opts.map (fun s => s.getD ""))
  | .date d =>
      match d with
      | none => ""
      | some se =>
          let start := se.1.getD ""
          let stop := se.2.getD ""
          if stop ≠ "" then start ++ " - " ++ stop else start
  | .checkbox b => pyStrBool (b.getD false)
  | .url u =>
      match u with
      | none => ""
      | some v => v.getD ""
  | .email e =>
      match e with
      | none => ""
      | some v => v.getD ""
  | .phone_number p =>
      match p with
      | none => ""
      | some v => v.getD ""
  | .people ps => pyJoin ", " (ps.map (fun p => p.getD ""))
  | .relation rs => pyJoin ", " (rs.map (fun r => r.getD ""))
  | .unsupported _ => ""

/-- The `NotionItem` dataclass (notion_client.py lines 19-25).  The
`content` dictionary is modelled as an insertion-ordered association list,
matching Python dict iteration order. -/
structure NotionItem where
  page_id : String
  title : String
  content : List (String × String)
  url : String
deriving DecidableEq, Repr

/-- Python dict lookup `d.get(k)` on the modelled `content` dictionary. -/
def dictGet (d : List (String × String)) (k : String) : Option String :=
  (d.find? (fun p => p.1 == k)).map Prod.snd

/-- Python dict assignment `d[k] = v`: overwrite an existing key in place,
otherwise append the new pair at the end. -/
def dictSet (d : List (String × String)) (k : String) (v : String) :
    List (String × String) :=
  if d.any (fun p => p.1 == k) then
    d.map (fun p => if p.1 == k then (k, v) else p)
  else d ++ [(k, v)]

/-- The `content` dictionary built for one query result inside
`NotionClient.get_unprocessed_items` (notion_client.py lines 211-222):
each configured content field that is present on the record is extracted
via `_extract_property_value`; afterwards, when `本文` is among the
configured fields and its entry is blank or absent, the page's block
content (`page_content`, the result of `_get_page_content`) is stored
under `本文` if it is non-empty. -/
def build_content (content_properties : List String)
    (properties : List (String × NotionProp)) (page_content : String) :
    List (String × String) :=
  let content := content_properties.foldl (fun content prop_name =>
    match properties.find? (fun p => p.1 == prop_name) with
    | some p => dictSet content prop_name (extract_property_value p.2)
    | none => content) []
  if "本文" ∈ content_properties ∧ (dictGet content "本文").getD "" = "" then
    if page_content ≠ "" then dictSet content "本文" page_content else content
  else content

/-! Embedding of `src/clients/gemini_client.py`. -/

/-- Outcome of one `model.generate_content` call: a response whose `.text`
attribute holds `s` (possibly empty), or a raised exception with message
`msg`. -/
inductive GeminiModelResponse where
  | text (s : String)
  | raise (msg : String)
deriving DecidableEq, Repr

namespace GeminiClient

/-- Model of `GeminiClient.process` (gemini_client.py lines 42-96).
Blank or whitespace-only input returns `""` normally (a warning is
logged) without consulting the model.  Otherwise an empty response text
raises `GeminiClientError` (here `Except.error`) with the source's
message, and an exception from the generation call is wrapped with the
`Gemini API呼び出しに失敗: ` prefix. -/
def process (content : String) (model : GeminiModelResponse) :
    Except String String :=
  if content = "" ∨ pyStrip content = "" then .ok ""
  else
    match model with
    | .text s =>
        if s ≠ "" then .ok s
        else .error "Gemini APIから有効な応答を取得できませんでした"
    | .raise msg => .error ("Gemini API呼び出しに失敗: " ++ msg)

end GeminiClient

/-! Embedding of `src/clients/slack_client.py`. -/

/-- The notification assembled by `SlackClient.send_processed_result`
(slack_client.py lines 102-159): the header and primary section texts of
the Block Kit payload, whether a link-action block is attached, the
static context line, and the plain-text fallback of line 157.  No field
of the payload derives from the original content — the source places no
original text anywhere in the message. -/
structure ProcessedResultMessage where
  header_text : String
  primary_text : String
  has_link_button : Bool
  context_text : String
  fallback_text : String
deriving DecidableEq, Repr

namespace SlackClient

/-- The local `truncated_original` computed by
`SlackClient.send_processed_result` at slack_client.py lines 103-105.
It is dead code: the function never places it — nor any other use of the
original content — into the blocks or the fallback text. -/
def truncated_original_local (original_content : String) : String :=
  if pyLen original_content > 300 then pyTake original_content 300 ++ "..."
  else original_content

/-- Model of the message construction in
`SlackClient.send_processed_result` (slack_client.py lines 102-159).
Mirroring the source, the truncation of the original content is computed
and then dropped. -/
def send_processed_result_message (title original_content processed_result
    notion_url : String) : ProcessedResultMessage :=
  let _truncated_original := truncated_original_local original_content
  { header_text := "📝 " ++ title
    primary_text := pyTake processed_result 3000
    has_link_button := notion_url != ""
    context_text := "🤖 _Gemini APIで自動処理されました_"
    fallback_text := "📝 " ++ title ++ "\n\n" ++ pyTake processed_result 500 ++ "..." }

end SlackClient

/-! Embedding of `src/main.py`. -/

/-- The `ProcessingResult` dataclass (main.py lines 34-40). -/
structure ProcessingResult where
  item : NotionItem
  success : Bool
  gemini_result : String := ""
  error_message : String := ""
deriving DecidableEq, Repr

/-- Outcome of one `SlackClient.send_message` call: a returned boolean
acknowledgment, or a raised `SlackClientError` (slack_client.py lines
59-81 either return a `bool` or raise `SlackClientError`). -/
inductive SlackCallOutcome where
  | ret (b : Bool)
  | raise (msg : String)
deriving DecidableEq, Repr

/-- The behaviors the remote services exhibit while one item is
processed: the Gemini generation call, the Slack success notification,
the Notion `mark_as_processed` return value (that method catches its own
errors and returns a `bool`, notion_client.py lines 234-265), and the
Slack error notification. -/
structure ItemEnv where
  gemini : GeminiModelResponse
  slackNotify : SlackCallOutcome
  notionMark : Bool
  slackErrorNotify : SlackCallOutcome
deriving DecidableEq, Repr

/-- Number of calls made to each remote capability. -/
structure Calls where
  gemini : Nat := 0
  slackNotify : Nat := 0
  notionMark : Nat := 0
  slackErrorNotify : Nat := 0
deriving DecidableEq, Repr

/-- Pointwise sum of call counters. -/
def add_calls (a b : Calls) : Calls :=
  { gemini := a.gemini + b.gemini
    slackNotify := a.slackNotify + b.slackNotify
    notionMark := a.notionMark + b.notionMark
    slackErrorNotify := a.slackErrorNotify + b.slackErrorNotify }

/-- Model of `NotionGeminiSlackPipeline._build_gemini_input`
(main.py lines 53-61): the title heading followed by one section per
non-empty content field, joined with newlines. -/
def build_gemini_input (item : NotionItem) : String :=
  let parts := ("# " ++ item.title) ::
    (item.content.filter (fun p => p.2 != "")).map
      (fun p => "\n## " ++ p.1 ++ "\n" ++ p.2)
  pyJoin "\n" parts

/-- Model of `NotionGeminiSlackPipeline.process_single_item`
(main.py lines 63-139), returning the `ProcessingResult` together with
the number of calls made to Gemini, to the success notifier and to
`mark_as_processed`.  A `GeminiClientError` is caught at lines 123-130
and recorded with its message; a `SlackClientError` raised by the
success notification reaches the generic handler at lines 132-139 and is
recorded with the `予期しないエラー: ` prefix.  A negative boolean from the
notifier or from `mark_as_processed` is only logged (lines 108-115). -/
def process_single_item (env : ItemEnv) (item : NotionItem) :
    ProcessingResult × Calls :=
  let gemini_input := build_gemini_input item
  if pyStrip gemini_input = "" ∨ pyStrip gemini_input = "# " ++ item.title then
    ({ item := item, success := false, error_message := "コンテンツが空です" },
     {})
  else
    match GeminiClient.process gemini_input env.gemini with
    | .error msg =>
        ({ item := item, success := false, error_message := msg },
         { gemini := 1 })
    | .ok gemini_result =>
        if gemini_result = "" then
          ({ item := item, success := false,
             error_message := "Geminiから有効な応答がありませんでした" },
           { gemini := 1 })
        else
          match env.slackNotify with
          | .raise msg =>
              ({ item := item, success := false,
                 error_message := "予期しないエラー: " ++ msg },
               { gemini := 1, slackNotify := 1 })
          | .ret _ =>
              ({ item := item, success := true, gemini_result := gemini_result },
               { gemini := 1, slackNotify := 1, notionMark := 1 })

/-- Result of `NotionClient.get_unprocessed_items`: the fetched batch
(each item paired with the remote behaviors its processing will meet),
or a raised `NotionClientError`.  Every transport or HTTP failure of the
query is wrapped into `NotionClientError` by `NotionClient._make_request`
(notion_client.py lines 47-78), so the `error` constructor covers all
fetch failures. -/
inductive FetchResult where
  | ok (items : List (NotionItem × ItemEnv))
  | error (msg : String)
deriving DecidableEq, Repr

/-- Model of `NotionGeminiSlackPipeline.run` (main.py lines 141-194): the
list of `ProcessingResult`s it returns.  A `NotionClientError` from the
fetch is caught at lines 156-158 and yields the empty list; the per-item
loop at lines 172-187 appends one result per item in fetch order. -/
def run (dry_run : Bool) (fetch : FetchResult) : List ProcessingResult :=
  match fetch with
  | .error _ => []
  | .ok items =>
    if items.isEmpty then []
    else if dry_run then []
    else items.map (fun p => (process_single_item p.2 p.1).1)

/-- The error-notification attempt of the `run` loop (main.py lines
179-187): one `send_error_notification` call per failed result with a
non-empty message; a `SlackClientError` from that call is caught, so the
attempt affects nothing but the call count. -/
def error_notify_calls (r : ProcessingResult) : Calls :=
  if r.success = false ∧ r.error_message ≠ "" then { slackErrorNotify := 1 }
  else {}

/-- The calls made to the remote capabilities during
`NotionGeminiSlackPipeline.run` (main.py lines 141-194). -/
def run_calls (dry_run : Bool) (fetch : FetchResult) : Calls :=
  match fetch with
  | .error _ => {}
  | .ok items =>
    if items.isEmpty then {}
    else if dry_run then {}
    else items.foldl (fun acc p =>
      let rc := process_single_item p.2 p.1
      add_calls (add_calls acc rc.2) (error_notify_calls rc.1)) {}

/-! Concrete fixtures used by counterexamples and witnesses. -/

/-- A sample item with one non-blank content field. -/
def sampleItem : NotionItem :=
  { page_id := "p1", title := "T", content := [("f", "v")], url := "u" }

/-- An item whose title ends in a space and whose only field is blank. -/
def trailingSpaceItem : NotionItem :=
  { page_id := "p2", title := "x ", content := [("f", "")], url := "u" }

/-- An all-blank item with a plain title. -/
def blankItem : NotionItem :=
  { page_id := "p3", title := "T", content := [("f", "")], url := "u" }

/-- Every remote call behaves: Gemini answers `r`, both Slack calls
acknowledge, the Notion update succeeds. -/
def envOk : ItemEnv :=
  { gemini := .text "r", slackNotify := .ret true, notionMark := true,
    slackErrorNotify := .ret true }

/-- Gemini answers, but the success notification returns `False` and the
Notion update returns `False`. -/
def envNotifyFalseCommitFalse : ItemEnv :=
  { gemini := .text "r", slackNotify := .ret false, notionMark := false,
    slackErrorNotify := .ret true }

/-- Gemini answers, but the success notification raises `SlackClientError`. -/
def envNotifyRaises : ItemEnv :=
  { gemini := .text "r", slackNotify := .raise "boom", notionMark := true,
    slackErrorNotify := .ret true }

/-- The Gemini call raises. -/
def envGeminiRaises : ItemEnv :=
  { gemini := .raise "quota", slackNotify := .ret true, notionMark := true,
    slackErrorNotify := .ret true }

/-- A two-item batch whose second item's transform call fails. -/
def twoItemBatch : List (NotionItem × ItemEnv) :=
  [(sampleItem, envOk), (sampleItem, envGeminiRaises)]

/-- A record carrying the configured field `A` as rich text. -/
def sampleProps : List (String × NotionProp) :=
  [("A", NotionProp.rich_text [some "hi"])]

/-- A string of exactly 5000 characters. -/
def fiveKString : String := ⟨List.replicate 5000 'a'⟩

/-- A string of exactly 301 characters, longer than the 300-character
truncation threshold. -/
def longOriginal : String := ⟨List.replicate 301 'o'⟩

/-! Helper lemmas shared by several proofs. -/

/-- Python slicing takes `min` of the bound and the length. -/
theorem pyLen_pyTake (s : String) (n : Nat) :
    pyLen (pyTake s n) = min n (pyLen s) := by
  simp [pyLen, pyTake, List.length_take]

/-- On a non-error fetch, `run` (without dry-run) returns exactly the
per-item results, in fetch order. -/
theorem run_ok_eq_map (items : List (NotionItem × ItemEnv)) :
    run false (.ok items) =
      items.map (fun p => (process_single_item p.2 p.1).1) := by
  cases items with
  | nil => rfl
  | cons a t => simp [run]

/-- An input whose strip is non-empty is itself non-empty, so
`GeminiClient.process` does not take the blank-input branch. -/
theorem gemini_guard_false (s : String) (h : pyStrip s ≠ "") :
    ¬ (s = "" ∨ pyStrip s = "") := by
  rintro (hs | hs)
  · subst hs; exact h rfl
  · exact h hs

/-- When the composed input is not skipped and the model raises,
`process_single_item` records a failure with the wrapped message and
makes exactly the Gemini call. -/
theorem process_single_item_gemini_raise (env : ItemEnv) (item : NotionItem)
    (msg : String) (hfail : env.gemini = .raise msg)
    (hnoskip : ¬ (pyStrip (build_gemini_input item) = "" ∨
                  pyStrip (build_gemini_input item) = "# " ++ item.title)) :
    process_single_item env item =
      ({ item := item, success := false,
         error_message := "Gemini API呼び出しに失敗: " ++ msg },
       { gemini := 1 }) := by
  have h1 : pyStrip (build_gemini_input item) ≠ "" :=
    fun h => hnoskip (Or.inl h)
  simp only [process_single_item, GeminiClient.process]
  rw [if_neg hnoskip, if_neg (gemini_guard_false _ h1), hfail]

/-- When all content fields are blank, the composed transformer input is
just the title heading. -/
theorem build_gemini_input_all_blank (item : NotionItem)
    (hblank : ∀ p ∈ item.content, p.2 = "") :
    build_gemini_input item = "# " ++ item.title := by
  simp only [build_gemini_input]
  have hfilter : item.content.filter (fun p => p.2 != "") = [] := by
    simp only [List.filter_eq_nil_iff]
    intro p hp
    simp [hblank p hp]
  rw [hfilter]
  rfl

/-! Claims. -/

/-- C7: the attribute extractor is total over the closed kind set (the
model `extract_property_value` is a total function: every constructor,
`unsupported` included, yields a string), and every unsupported kind
yields the empty string. -/
theorem extract_total_on_unsupported :
    ∀ tag, extract_property_value (.unsupported tag) = "" :=
  fun _ => rfl

/-- C8, counterexample: a true boolean attribute renders as Python
`str(True)`, which is the capitalized `"True"`, not the lowercase
`"true"` the claim states. -/
theorem checkbox_lowercase_counterexample :
    extract_property_value (.checkbox (some true)) = "True" ∧
    extract_property_value (.checkbox (some true)) ≠ "true" := by
  exact ⟨rfl, by decide⟩

/-- C8, amended: a boolean attribute renders as Python `str` of the
value — `"True"` when true, `"False"` when false, and `"False"` when the
raw key is absent (the source defaults it to `False`). -/
theorem checkbox_renders_python_bool :
    extract_property_value (.checkbox (some true)) = "True" ∧
    extract_property_value (.checkbox (some false)) = "False" ∧
    extract_property_value (.checkbox none) = "False" := by
  exact ⟨rfl, rfl, rfl⟩

/-- C10: a number attribute whose raw value is present but null renders
as the stringified null `"None"`; only an entirely absent raw number
field renders as the empty string, and the two renderings differ. -/
theorem number_null_vs_absent :
    extract_property_value (.number (some none)) = "None" ∧
    extract_property_value (.number none) = "" ∧
    extract_property_value (.number (some none)) ≠
      extract_property_value (.number none) := by
  exact ⟨rfl, rfl, by decide⟩

/-- C4, counterexample: on whitespace-only input the transformer returns
the empty string normally (`Except.ok`), it does not fail — even when
the underlying model call would raise. -/
theorem gemini_blank_input_counterexample :
    GeminiClient.process "   " (.raise "x") = Except.ok "" := by
  rfl

/-- C4, amended: for every blank or whitespace-only input text,
`GeminiClient.process` returns the empty string normally, independent of
the model (the model is never consulted); the pipeline caller is the one
that converts the empty result into a failure. -/
theorem gemini_process_blank_returns_empty (content : String)
    (model : GeminiModelResponse) (h : pyStrip content = "") :
    GeminiClient.process content model = Except.ok "" := by
  simp only [GeminiClient.process]
  rw [if_pos (Or.inr h)]

/-- Witness for the amended C4 at a concrete whitespace-only input. -/
theorem gemini_process_blank_witness :
    GeminiClient.process " \t " (.text "m") = Except.ok "" :=
  gemini_process_blank_returns_empty " \t " (.text "m") (by decide)

/-- C5, counterexample: the success notification displays no original
or source text at all.  For a 301-character original — the claim's
longer-than-300 case — the assembled notification is identical to the
one built from an empty original, because the truncation computed at
slack_client.py lines 103-105 is a dead local never placed into the
Block Kit payload or the fallback string. -/
theorem displayed_original_counterexample :
    SlackClient.send_processed_result_message "t" longOriginal "r" "u" =
      SlackClient.send_processed_result_message "t" "" "r" "u" ∧
    pyLen longOriginal = 301 := by
  constructor
  · rfl
  · show (List.replicate 301 'o').length = 301
    rw [List.length_replicate]

/-- C5, amended: the notification payload is independent of the original
content — no original text is displayed; its 300-character
cap-with-ellipsis truncation is computed only into a dead local (which
does obey the cap rule).  The primary result block is the first 3000
characters of the result (its length is the minimum of 3000 and the
result length), and a 5000-character result gives a 3000-character
primary block and a fallback whose result portion is exactly 500
characters plus the trailing marker. -/
theorem truncation_exactness_amended (title original result link : String) :
    (SlackClient.send_processed_result_message title original result link =
      SlackClient.send_processed_result_message title "" result link) ∧
    (SlackClient.truncated_original_local original =
      if pyLen original > 300 then pyTake original 300 ++ "..." else original) ∧
    (SlackClient.send_processed_result_message title original result
        link).primary_text = pyTake result 3000 ∧
    pyLen (SlackClient.send_processed_result_message title original result
        link).primary_text = min 3000 (pyLen result) ∧
    (pyLen result = 5000 →
      pyLen (SlackClient.send_processed_result_message title original result
          link).primary_text = 3000 ∧
      (SlackClient.send_processed_result_message title original result
          link).fallback_text =
        "📝 " ++ title ++ "\n\n" ++ pyTake result 500 ++ "..." ∧
      pyLen (pyTake result 500) = 500) := by
  refine ⟨rfl, rfl, rfl, ?_, ?_⟩
  · show pyLen (pyTake result 3000) = min 3000 (pyLen result)
    exact pyLen_pyTake result 3000
  · intro h
    refine ⟨?_, rfl, ?_⟩
    · show pyLen (pyTake result 3000) = 3000
      rw [pyLen_pyTake, h]
      norm_num
    · rw [pyLen_pyTake, h]
      norm_num

/-- C1: partial-failure isolation — on a fetched batch whose item at
position `k` has non-blank content and whose transform call raises, the
run still returns one `ProcessingResult` per item in fetch order (each
position's result is exactly the processing of its own item, so items
after `k` are still processed and every position whose own processing
succeeds carries a success outcome), and position `k` carries a failure
outcome with the wrapped transform error. -/
theorem batch_isolates_transform_failure
    (items : List (NotionItem × ItemEnv)) (k : Nat) (hk : k < items.length)
    (msg : String)
    (hfail : (items.get ⟨k, hk⟩).2.gemini = .raise msg)
    (hnoskip : ¬ (pyStrip (build_gemini_input (items.get ⟨k, hk⟩).1) = "" ∨
                  pyStrip (build_gemini_input (items.get ⟨k, hk⟩).1) =
                    "# " ++ (items.get ⟨k, hk⟩).1.title)) :
    (run false (.ok items)).length = items.length ∧
    run false (.ok items) =
      items.map (fun p => (process_single_item p.2 p.1).1) ∧
    (process_single_item (items.get ⟨k, hk⟩).2
      (items.get ⟨k, hk⟩).1).1.success = false ∧
    (process_single_item (items.get ⟨k, hk⟩).2
      (items.get ⟨k, hk⟩).1).1.error_message =
      "Gemini API呼び出しに失敗: " ++ msg := by
  have hproc := process_single_item_gemini_raise (items.get ⟨k, hk⟩).2
    (items.get ⟨k, hk⟩).1 msg hfail hnoskip
  refine ⟨?_, run_ok_eq_map items, ?_, ?_⟩
  · rw [run_ok_eq_map items, List.length_map]
  · rw [hproc]
  · rw [hproc]

/-- Witness for C1 on a concrete two-item batch whose second item's
transform call raises. -/
theorem batch_isolates_transform_failure_witness :
    (run false (.ok twoItemBatch)).length = twoItemBatch.length ∧
    (process_single_item (twoItemBatch.get ⟨1, by decide⟩).2
      (twoItemBatch.get ⟨1, by decide⟩).1).1.success = false :=
  ⟨(batch_isolates_transform_failure twoItemBatch 1 (by decide) "quota"
      (by decide) (by decide)).1,
   (batch_isolates_transform_failure twoItemBatch 1 (by decide) "quota"
      (by decide) (by decide)).2.2.1⟩

/-- C2, counterexample: on an item whose transform step succeeded, an
exception from the success-notification call does change the recorded
outcome — it is caught by the generic per-item handler and recorded as a
failure with the `予期しないエラー` prefix, contradicting the claim that the
outcome would remain a success. -/
theorem notify_exception_counterexample :
    GeminiClient.process (build_gemini_input sampleItem)
      envNotifyRaises.gemini = Except.ok "r" ∧
    (process_single_item envNotifyRaises sampleItem).1.success = false ∧
    (process_single_item envNotifyRaises sampleItem).1.error_message =
      "予期しないエラー: boom" := by
  exact ⟨rfl, rfl, rfl⟩

/-- C2, amended: for every item whose transform step succeeded, a false
(or any boolean) return from the success-notification call and any
return from the commit call leave the recorded outcome a success and do
not halt the batch; an exception from the success-notification call is
caught at the item boundary and recorded as a failure for that item, and
likewise does not halt the batch.  (`env.notionMark`, the commit return
value, is unconstrained throughout, so a false commit never affects the
outcome.) -/
theorem notify_and_commit_best_effort (env : ItemEnv) (item : NotionItem)
    (res : String)
    (hnoskip : ¬ (pyStrip (build_gemini_input item) = "" ∨
                  pyStrip (build_gemini_input item) = "# " ++ item.title))
    (hgem : env.gemini = .text res) (hres : res ≠ "") :
    (∀ b, env.slackNotify = .ret b →
      (process_single_item env item).1.success = true ∧
      (process_single_item env item).1.gemini_result = res) ∧
    (∀ msg, env.slackNotify = .raise msg →
      (process_single_item env item).1.success = false ∧
      (process_single_item env item).1.error_message =
        "予期しないエラー: " ++ msg) ∧
    (∀ rest, (run false (.ok ((item, env) :: rest))).length =
      rest.length + 1) := by
  have h1 : pyStrip (build_gemini_input item) ≠ "" :=
    fun h => hnoskip (Or.inl h)
  have hproc : GeminiClient.process (build_gemini_input item) env.gemini =
      Except.ok res := by
    simp only [GeminiClient.process]
    rw [if_neg (gemini_guard_false _ h1), hgem]
    simp [hres]
  refine ⟨?_, ?_, ?_⟩
  · intro b hb
    simp only [process_single_item]
    rw [if_neg hnoskip, hproc, hb]
    simp [hres]
  · intro msg hmsg
    simp only [process_single_item]
    rw [if_neg hnoskip, hproc, hmsg]
    simp [hres]
  · intro rest
    rw [run_ok_eq_map]
    simp

/-- Witness for the amended C2: the notifier returns `False` and the
commit returns `False`, yet the recorded outcome is a success. -/
theorem notify_and_commit_best_effort_witness :
    (process_single_item envNotifyFalseCommitFalse sampleItem).1.success =
      true ∧
    (process_single_item envNotifyFalseCommitFalse
      sampleItem).1.gemini_result = "r" :=
  (notify_and_commit_best_effort envNotifyFalseCommitFalse sampleItem "r"
    (by decide) rfl (by decide)).1 false rfl

/-- C3, counterexample: an item whose every content field is blank but
whose title ends in a space composes to exactly the title heading, yet
the orchestrator does not short-circuit — the stripped input no longer
equals the unstripped heading, so the transform capability is invoked
(one Gemini call) and the outcome is even a success. -/
theorem empty_content_counterexample :
    build_gemini_input trailingSpaceItem = "# " ++ trailingSpaceItem.title ∧
    (process_single_item envOk trailingSpaceItem).1.success = true ∧
    (process_single_item envOk trailingSpaceItem).2.gemini = 1 := by
  exact ⟨rfl, rfl, rfl⟩

/-- C3, amended: for every item whose every content field is blank and
whose composed title heading is unchanged by whitespace-stripping (the
title is non-empty and does not end in whitespace), the orchestrator
records the failure `コンテンツが空です` without invoking the transform
capability, the success notifier or the committer (zero calls to each). -/
theorem empty_content_short_circuit (env : ItemEnv) (item : NotionItem)
    (hblank : ∀ p ∈ item.content, p.2 = "")
    (hstrip : pyStrip ("# " ++ item.title) = "# " ++ item.title) :
    process_single_item env item =
      ({ item := item, success := false,
         error_message := "コンテンツが空です" }, ({} : Calls)) := by
  have hb := build_gemini_input_all_blank item hblank
  simp only [process_single_item]
  rw [hb, if_pos (Or.inr hstrip)]

/-- Witness for the amended C3 at a concrete all-blank item. -/
theorem empty_content_short_circuit_witness :
    process_single_item envOk blankItem =
      ({ item := blankItem, success := false,
         error_message := "コンテンツが空です" }, ({} : Calls)) :=
  empty_content_short_circuit envOk blankItem (by decide) (by decide)

/-- C6: a fetch failure (a `NotionClientError`, into which every
transport failure of the unprocessed-items query is wrapped) makes the
run return the empty result set cleanly with zero calls to any remote
capability; and it is the only failure kind that terminates the batch
early — for every successfully fetched batch, whatever the per-item
behaviors, the run produces one result per item. -/
theorem fetch_failure_terminates_run :
    (∀ msg, run false (.error msg) = [] ∧
      run_calls false (.error msg) = ({} : Calls)) ∧
    (∀ items, (run false (.ok items)).length = items.length) := by
  constructor
  · intro msg
    exact ⟨rfl, rfl⟩
  · intro items
    rw [run_ok_eq_map items, List.length_map]

/-- A key of `dictSet d k v` is a key of `d` or is `k`. -/
theorem dictSet_keys (d : List (String × String)) (k v : String) :
    ∀ x ∈ (dictSet d k v).map Prod.fst, x ∈ d.map Prod.fst ∨ x = k := by
  intro x hx
  simp only [dictSet] at hx
  by_cases h : d.any (fun p => p.1 == k)
  · rw [if_pos h] at hx
    simp only [List.map_map, List.mem_map, Function.comp] at hx
    obtain ⟨p, hp, hpx⟩ := hx
    split at hpx
    · right
      exact hpx.symm
    · left
      exact List.mem_map.mpr ⟨p, hp, hpx⟩
  · rw [if_neg h] at hx
    simp only [List.map_append, List.mem_append] at hx
    rcases hx with hx | hx
    · left
      exact hx
    · right
      simpa using hx

/-- C9, counterexample: with configured field list `["A"]` and a record
carrying no attributes at all, the fetched item's content has no keys —
the configured field does not appear with an empty value, so the key set
is not the configured list. -/
theorem content_keys_counterexample :
    (build_content ["A"] [] "").map Prod.fst = [] ∧
    (build_content ["A"] [] "").map Prod.fst ≠ ["A"] := by
  exact ⟨rfl, by decide⟩

/-- C9, amended: the key set of a fetched item's content mapping is a
subset of the configured content field list — each configured field
present on the record contributes its key, a configured field missing
from the record is omitted rather than defaulted to the empty string,
and the `本文` fallback only ever writes a key that is itself configured. -/
theorem build_content_keys_in_configured (cps : List String)
    (props : List (String × NotionProp)) (pc : String) :
    ∀ k ∈ (build_content cps props pc).map Prod.fst, k ∈ cps := by
  have hfold : ∀ (l : List String) (acc : List (String × String)),
      (∀ x ∈ l, x ∈ cps) → (∀ x ∈ acc.map Prod.fst, x ∈ cps) →
      ∀ x ∈ ((l.foldl (fun content prop_name =>
        match props.find? (fun p => p.1 == prop_name) with
        | some p => dictSet content prop_name (extract_property_value p.2)
        | none => content) acc).map Prod.fst), x ∈ cps := by
    intro l
    induction l with
    | nil =>
        intro acc _ hacc x hx
        exact hacc x hx
    | cons c t ih =>
        intro acc hl hacc x hx
        rw [List.foldl_cons] at hx
        refine ih _ (fun y hy => hl y (List.mem_cons_of_mem c hy)) ?_ x hx
        intro y hy
        cases hfind : props.find? (fun p => p.1 == c) with
        | none =>
            rw [hfind] at hy
            exact hacc y hy
        | some p =>
            rw [hfind] at hy
            rcases dictSet_keys acc c (extract_property_value p.2) y hy
              with h | h
            · exact hacc y h
            · rw [h]
              exact hl c (List.mem_cons_self c t)
  intro k hk
  simp only [build_content] at hk
  split at hk
  next hcond =>
    split at hk
    next =>
      rcases dictSet_keys _ _ _ k hk with h | h
      · exact hfold cps [] (fun x hx => hx) (by simp) k h
      · subst h
        exact hcond.1
    next =>
      exact hfold cps [] (fun x hx => hx) (by simp) k hk
  next =>
    exact hfold cps [] (fun x hx => hx) (by simp) k hk

/-- Witness for the amended C9: a key produced from a concrete record is
in the configured list. -/
theorem build_content_keys_witness : "A" ∈ ["A"] :=
  build_content_keys_in_configured ["A"] sampleProps "" "A" (by decide)

/-- Witness for the amended C5 at a concrete 5000-character result text. -/
theorem truncation_exactness_witness :
    pyLen (SlackClient.send_processed_result_message "t" "o" fiveKString
      "u").primary_text = 3000 ∧
    pyLen (pyTake fiveKString 500) = 500 := by
  have h5 : pyLen fiveKString = 5000 := by
    show (List.replicate 5000 'a').length = 5000
    rw [List.length_replicate]
  have h := (truncation_exactness_amended "t" "o" fiveKString "u").2.2.2.2 h5
  exact ⟨h.1, h.2.2⟩

end NotionGeminiSlack
